import Mathlib

/-!
Verification of the bounded random value generator of the `device-simple` /
`device-dcs` repository (driver/simpledriver.go), as a shallow embedding.

The repository owns:
  * `SimpleDriver` with its registry `randomDevices : map[string]*randomDevice`,
  * `HandleReadCommands`, `HandleWriteCommands`, `DisconnectDevice`, `Stop`,
    `Initialize` (driver/simpledriver.go),
  * the `randomDevice` struct with its six bound fields, `newRandomDevice`,
    `randomDevice.value` and the absolute-limit constants `defMinInt8` ..
    `defMaxInt32` (a repository file that is not among the available sources;
    those definitions are modelled from the specification, see the doc
    comments below).

Machine integers of the Go code are embedded as `Int`; the SDK types
(`CommandRequest`, `CommandValue`) are host collaborators that the
specification places out of scope, so they are embedded with exactly the
payload the specification's external interface gives them (a type tag for a
read request; a field name and an integer value for a write update).
-/

namespace DeviceSimple

/-- Modelled from the spec: the absolute width limit constant `defMinInt8`
is declared in a repository file that is not among the available sources;
the spec fixes the full signed 8-bit range [-128, 127]. -/
def defMinInt8 : Int := -128

/-- Modelled from the spec: the absolute width limit constant `defMaxInt8`
(missing source file); full signed 8-bit range ceiling. -/
def defMaxInt8 : Int := 127

/-- Modelled from the spec: the absolute width limit constant `defMinInt16`
(missing source file); full signed 16-bit range floor. -/
def defMinInt16 : Int := -32768

/-- Modelled from the spec: the absolute width limit constant `defMaxInt16`
(missing source file); full signed 16-bit range ceiling. -/
def defMaxInt16 : Int := 32767

/-- Modelled from the spec: the absolute width limit constant `defMinInt32`
(missing source file); full signed 32-bit range floor. -/
def defMinInt32 : Int := -2147483648

/-- Modelled from the spec: the absolute width limit constant `defMaxInt32`
(missing source file); full signed 32-bit range ceiling. -/
def defMaxInt32 : Int := 2147483647

/-- Modelled from the spec: the `randomDevice` struct (missing source file) —
per-device state holding, for each supported signed integer width, a current
minimum and maximum bound (`int64` fields in the Go code, embedded as `Int`). -/
structure RandomDevice where
  minInt8 : Int
  maxInt8 : Int
  minInt16 : Int
  maxInt16 : Int
  minInt32 : Int
  maxInt32 : Int
deriving Repr, DecidableEq

/-- Modelled from the spec: `newRandomDevice` (missing source file) — default
bounds equal the full legal range for each width. -/
def newRandomDevice : RandomDevice :=
  { minInt8 := defMinInt8, maxInt8 := defMaxInt8
    minInt16 := defMinInt16, maxInt16 := defMaxInt16
    minInt32 := defMinInt32, maxInt32 := defMaxInt32 }

/-- The error kinds of the core, embedding the distinct `fmt.Errorf` shapes of
driver/simpledriver.go and the read-value error of the spec:
`outOfRange` embeds the "minimum/maximum value %d of %T must be int between
%d ~ %d" messages, `unknownField` the "there is no matched device resource"
message, `unsupportedType` the spec's UnsupportedType read failure, and
`emptyRange` marks generation on an empty range [min, max] with min > max,
where the spec leaves generation undefined (its invariant is supposed to rule
the case out) and the Go standard library panics. -/
inductive DriverError where
  | outOfRange (field : String) (v floor ceiling : Int)
  | unknownField (object : String)
  | unsupportedType (t : String)
  | emptyRange (t : String)
deriving Repr, DecidableEq

/-- Modelled from the spec: `randomDevice.rangeValue` (missing source file) —
selects the current [min, max] pair for the requested width, failing with
UnsupportedType for any tag other than Int8/Int16/Int32. -/
def RandomDevice.rangeValue (rd : RandomDevice) (t : String) :
    Except DriverError (Int × Int) :=
  if t = "Int8" then .ok (rd.minInt8, rd.maxInt8)
  else if t = "Int16" then .ok (rd.minInt16, rd.maxInt16)
  else if t = "Int32" then .ok (rd.minInt32, rd.maxInt32)
  else .error (.unsupportedType t)

/-- Modelled from the spec: `randomDevice.value` (missing source file) —
generates a uniformly distributed pseudo-random integer within the device's
current [min, max] range for the requested width. The pseudo-random source is
exposed as an explicit natural-number `seed`; uniform sampling in the closed
range is realised as min + seed % (max - min + 1). For an empty range
(min > max, which the spec's invariant is supposed to rule out) generation is
undefined in the spec and panics in Go; the model reports `emptyRange`. -/
def RandomDevice.value (rd : RandomDevice) (seed : Nat) (t : String) :
    Except DriverError Int :=
  match rd.rangeValue t with
  | .error e => .error e
  | .ok (mn, mx) =>
      if mx - mn + 1 ≤ 0 then .error (.emptyRange t)
      else .ok (mn + (seed : Int) % (mx - mn + 1))

/-- A read request, embedding the only payload of `dsModels.CommandRequest`
the driver consumes: `req.DeviceResource.Properties.Value.Type`. -/
structure CommandRequest where
  valueType : String
deriving Repr, DecidableEq

/-- A write parameter, embedding the payload of `dsModels.CommandValue` the
driver consumes: `param.RO.Object` (the field name) and the numeric value
extracted by `param.Int8Value()` / `Int16Value()` / `Int32Value()`. The SDK
value-typing machinery is a host collaborator the spec puts out of scope; per
the spec's external interface a write update carries a plain integer. -/
structure CommandValue where
  object : String
  value : Int
deriving Repr, DecidableEq

/-- A returned reading, embedding the payload of the `dsModels.CommandValue`
built by `NewInt8Value` / `NewInt16Value` / `NewInt32Value`: the type tag, the
origin timestamp `now`, and the numeric value after the Go width conversion. -/
structure ReadValue where
  valueType : String
  origin : Int
  numericValue : Int
deriving Repr, DecidableEq

/-- Go conversion `int8(v)` on an `int64`: two's-complement truncation. -/
def int8Wrap (v : Int) : Int := (v + 128) % 256 - 128

/-- Go conversion `int16(v)` on an `int64`: two's-complement truncation. -/
def int16Wrap (v : Int) : Int := (v + 32768) % 65536 - 32768

/-- Go conversion `int32(v)` on an `int64`: two's-complement truncation. -/
def int32Wrap (v : Int) : Int := (v + 2147483648) % 4294967296 - 2147483648

/-- The driver state: the registry `randomDevices : map[string]*randomDevice`
of SimpleDriver (the logging client and async channel are host plumbing with
no bearing on the claims). -/
structure SimpleDriver where
  randomDevices : String → Option RandomDevice

/-- `SimpleDriver.Initialize`: starts from an empty registry
(`make(map[string]*randomDevice)`). -/
def InitializeDriver : SimpleDriver := { randomDevices := fun _ => none }

/-- Registry update: `s.randomDevices[deviceName] = rd`. -/
def insertDevice (s : SimpleDriver) (deviceName : String) (rd : RandomDevice) :
    SimpleDriver :=
  { randomDevices := fun n => if n = deviceName then some rd else s.randomDevices n }

/-- The device the driver operates on for `deviceName`: the registry entry,
or a fresh `newRandomDevice` when the name is unseen (`rd, ok := ...; if !ok`
in both handlers). -/
def deviceFor (s : SimpleDriver) (deviceName : String) : RandomDevice :=
  (s.randomDevices deviceName).getD newRandomDevice

/-- One iteration of the write loop of `SimpleDriver.HandleWriteCommands`
(the `switch param.RO.Object` at lines 88-153): validate the named bound
update against its absolute limit and apply it. A minimum update is checked
only against the width's floor, a maximum update only against the width's
ceiling; the failing check returns before the bound is assigned. The
`param.IntNValue()` error branches concern the SDK's value typing, which the
spec puts out of scope (updates carry plain integers). -/
def writeStep (rd : RandomDevice) (param : CommandValue) :
    Except DriverError RandomDevice :=
  if param.object = "Min_Int8" then
    if param.value < defMinInt8 then
      .error (.outOfRange "Min_Int8" param.value defMinInt8 defMaxInt8)
    else .ok { rd with minInt8 := param.value }
  else if param.object = "Max_Int8" then
    if param.value > defMaxInt8 then
      .error (.outOfRange "Max_Int8" param.value defMinInt8 defMaxInt8)
    else .ok { rd with maxInt8 := param.value }
  else if param.object = "Min_Int16" then
    if param.value < defMinInt16 then
      .error (.outOfRange "Min_Int16" param.value defMinInt16 defMaxInt16)
    else .ok { rd with minInt16 := param.value }
  else if param.object = "Max_Int16" then
    if param.value > defMaxInt16 then
      .error (.outOfRange "Max_Int16" param.value defMinInt16 defMaxInt16)
    else .ok { rd with maxInt16 := param.value }
  else if param.object = "Min_Int32" then
    if param.value < defMinInt32 then
      .error (.outOfRange "Min_Int32" param.value defMinInt32 defMaxInt32)
    else .ok { rd with minInt32 := param.value }
  else if param.object = "Max_Int32" then
    if param.value > defMaxInt32 then
      .error (.outOfRange "Max_Int32" param.value defMinInt32 defMaxInt32)
    else .ok { rd with maxInt32 := param.value }
  else .error (.unknownField param.object)

/-- The write loop of `HandleWriteCommands`: `for _, param := range params`,
returning at the first failing update. Mutations applied by earlier
iterations persist (the Go code mutates the map entry through a pointer). -/
def writeLoop (rd : RandomDevice) : List CommandValue → RandomDevice × Option DriverError
  | [] => (rd, none)
  | p :: ps =>
      match writeStep rd p with
      | .error e => (rd, some e)
      | .ok rd2 => writeLoop rd2 ps

/-- `SimpleDriver.HandleWriteCommands`: look up or lazily create the device
(lines 82-86; insertion happens before any validation), then run the write
loop. The device entry in the registry reflects every update applied before a
failure, because the Go loop mutates the registry's `*randomDevice` in place. -/
def HandleWriteCommands (s : SimpleDriver) (deviceName : String)
    (params : List CommandValue) : SimpleDriver × Option DriverError :=
  let rd := deviceFor s deviceName
  let r := writeLoop rd params
  (insertDevice s deviceName r.fst, r.snd)

/-- The `switch t` of `HandleReadCommands` (lines 61-68) building the result
`CommandValue` with the Go width conversion. The final branch is unreachable:
`rd.value t` has already rejected every other type tag (in Go the result slot
would stay nil). -/
def mkReadValue (t : String) (now v : Int) : ReadValue :=
  if t = "Int8" then { valueType := "Int8", origin := now, numericValue := int8Wrap v }
  else if t = "Int16" then { valueType := "Int16", origin := now, numericValue := int16Wrap v }
  else if t = "Int32" then { valueType := "Int32", origin := now, numericValue := int32Wrap v }
  else { valueType := "", origin := now, numericValue := 0 }

/-- The read loop of `HandleReadCommands` (lines 54-70): for each request,
draw a value of the requested type; the first failure aborts the call
(`return nil, err`). `seeds i` is the pseudo-random draw consumed by the
i-th iteration. -/
def readLoop (rd : RandomDevice) (now : Int) (seeds : Nat → Nat) :
    Nat → List CommandRequest → Except DriverError (List ReadValue)
  | _, [] => .ok []
  | i, req :: rest =>
      match rd.value (seeds i) req.valueType with
      | .error e => .error e
      | .ok v =>
          match readLoop rd now seeds (i + 1) rest with
          | .error e => .error e
          | .ok tail => .ok (mkReadValue req.valueType now v :: tail)

/-- `SimpleDriver.HandleReadCommands`: look up or lazily create the device
(lines 45-49; insertion happens before any validation), take the timestamp
`now`, and run the read loop. Reads never mutate device bounds; the only
state change is the lazy insertion. -/
def HandleReadCommands (s : SimpleDriver) (deviceName : String)
    (reqs : List CommandRequest) (now : Int) (seeds : Nat → Nat) :
    SimpleDriver × Except DriverError (List ReadValue) :=
  let rd := deviceFor s deviceName
  (insertDevice s deviceName rd, readLoop rd now seeds 0 reqs)

/-- `SimpleDriver.DisconnectDevice`: returns nil unconditionally, touching no
state. -/
def DisconnectDevice (s : SimpleDriver) (deviceName : String) :
    SimpleDriver × Option DriverError :=
  (s, none)

/-- `SimpleDriver.Stop`: logs and returns nil unconditionally for either value
of `force`, touching no registry state. -/
def Stop (s : SimpleDriver) (force : Bool) : SimpleDriver × Option DriverError :=
  (s, none)

/-- Driver states reachable from initialization through the exported
operations. -/
inductive Reachable : SimpleDriver → Prop
  | init : Reachable InitializeDriver
  | write (s : SimpleDriver) (d : String) (ps : List CommandValue) :
      Reachable s → Reachable (HandleWriteCommands s d ps).fst
  | read (s : SimpleDriver) (d : String) (reqs : List CommandRequest)
      (now : Int) (seeds : Nat → Nat) :
      Reachable s → Reachable (HandleReadCommands s d reqs now seeds).fst
  | disconnect (s : SimpleDriver) (d : String) :
      Reachable s → Reachable (DisconnectDevice s d).fst
  | stop (s : SimpleDriver) (force : Bool) :
      Reachable s → Reachable (Stop s force).fst

/-- Each bound lies within its one-sided absolute limit: every minimum at or
above the width's absolute floor, every maximum at or below the width's
absolute ceiling. This is the part of the spec's invariant the write
validation actually maintains. -/
def BoundsOK (rd : RandomDevice) : Prop :=
  defMinInt8 ≤ rd.minInt8 ∧ rd.maxInt8 ≤ defMaxInt8 ∧
  defMinInt16 ≤ rd.minInt16 ∧ rd.maxInt16 ≤ defMaxInt16 ∧
  defMinInt32 ≤ rd.minInt32 ∧ rd.maxInt32 ≤ defMaxInt32

instance (rd : RandomDevice) : Decidable (BoundsOK rd) := by
  unfold BoundsOK; infer_instance

/-- A successful update names one bound and replaces exactly it: each field of
`new` is the written value when the update names that field, and the old field
otherwise. -/
def replacesOnly (field : String) (v : Int) (old new : RandomDevice) : Prop :=
  new.minInt8 = (if field = "Min_Int8" then v else old.minInt8) ∧
  new.maxInt8 = (if field = "Max_Int8" then v else old.maxInt8) ∧
  new.minInt16 = (if field = "Min_Int16" then v else old.minInt16) ∧
  new.maxInt16 = (if field = "Max_Int16" then v else old.maxInt16) ∧
  new.minInt32 = (if field = "Min_Int32" then v else old.minInt32) ∧
  new.maxInt32 = (if field = "Max_Int32" then v else old.maxInt32)

instance (field : String) (v : Int) (old new : RandomDevice) :
    Decidable (replacesOnly field v old new) := by
  unfold replacesOnly; infer_instance

/-! ## Helper lemmas -/

theorem deviceFor_insert (s : SimpleDriver) (d n : String) (rd : RandomDevice) :
    deviceFor (insertDevice s d rd) n = if n = d then rd else deviceFor s n := by
  by_cases h : n = d <;> simp [deviceFor, insertDevice, h]

theorem boundsOK_new : BoundsOK newRandomDevice := by decide

theorem writeStep_boundsOK {rd rd2 : RandomDevice} {p : CommandValue}
    (hrd : BoundsOK rd) (h : writeStep rd p = .ok rd2) : BoundsOK rd2 := by
  obtain ⟨h1, h2, h3, h4, h5, h6⟩ := hrd
  unfold writeStep at h
  split_ifs at h <;>
    first
      | (injection h with h; subst h;
         refine ⟨?_, ?_, ?_, ?_, ?_, ?_⟩ <;>
           simp_all [defMinInt8, defMaxInt8, defMinInt16, defMaxInt16,
             defMinInt32, defMaxInt32] <;> omega)
      | exact absurd h (by simp)

theorem writeLoop_boundsOK {rd : RandomDevice} (ps : List CommandValue)
    (hrd : BoundsOK rd) : BoundsOK (writeLoop rd ps).fst := by
  induction ps generalizing rd with
  | nil => exact hrd
  | cons p ps ih =>
      unfold writeLoop
      cases h : writeStep rd p with
      | error e => exact hrd
      | ok rd2 => exact ih (writeStep_boundsOK hrd h)

theorem reachable_boundsOK {s : SimpleDriver} (hs : Reachable s) :
    ∀ d : String, BoundsOK (deviceFor s d) := by
  induction hs with
  | init => intro d; simpa [deviceFor, InitializeDriver] using boundsOK_new
  | write s d0 ps _ ih =>
      intro d
      show BoundsOK (deviceFor (insertDevice s d0 (writeLoop (deviceFor s d0) ps).fst) d)
      rw [deviceFor_insert]
      split
      · exact writeLoop_boundsOK ps (ih d0)
      · exact ih d
  | read s d0 reqs now seeds _ ih =>
      intro d
      show BoundsOK (deviceFor (insertDevice s d0 (deviceFor s d0)) d)
      rw [deviceFor_insert]
      split
      · exact ih d0
      · exact ih d
  | disconnect s d0 _ ih => exact ih
  | stop s f _ ih => exact ih

theorem sample_mem {mn mx : Int} (seed : Nat) (hle : mn ≤ mx) :
    mn ≤ mn + (seed : Int) % (mx - mn + 1) ∧
      mn + (seed : Int) % (mx - mn + 1) ≤ mx := by
  have hpos : (0 : Int) < mx - mn + 1 := by omega
  have h1 : 0 ≤ (seed : Int) % (mx - mn + 1) := Int.emod_nonneg _ (by omega)
  have h2 : (seed : Int) % (mx - mn + 1) < mx - mn + 1 := Int.emod_lt_of_pos _ hpos
  omega

theorem value_ok {rd : RandomDevice} {t : String} {mn mx : Int} (seed : Nat)
    (h : rd.rangeValue t = .ok (mn, mx)) (hle : mn ≤ mx) :
    rd.value seed t = .ok (mn + (seed : Int) % (mx - mn + 1)) := by
  unfold RandomDevice.value
  rw [h]
  simp only
  rw [if_neg (by omega)]

theorem int8Wrap_id {v : Int} (h1 : -128 ≤ v) (h2 : v ≤ 127) : int8Wrap v = v := by
  unfold int8Wrap
  have : (v + 128) % 256 = v + 128 := Int.emod_eq_of_lt (by omega) (by omega)
  omega

theorem int16Wrap_id {v : Int} (h1 : -32768 ≤ v) (h2 : v ≤ 32767) :
    int16Wrap v = v := by
  unfold int16Wrap
  have : (v + 32768) % 65536 = v + 32768 := Int.emod_eq_of_lt (by omega) (by omega)
  omega

theorem int32Wrap_id {v : Int} (h1 : -2147483648 ≤ v) (h2 : v ≤ 2147483647) :
    int32Wrap v = v := by
  unfold int32Wrap
  have : (v + 2147483648) % 4294967296 = v + 2147483648 :=
    Int.emod_eq_of_lt (by omega) (by omega)
  omega

/-- A single Int8 read on a device whose 8-bit bounds are well ordered and
inside the absolute 8-bit range returns exactly the sampled value. -/
theorem readLoop_int8 (rd : RandomDevice) (now : Int) (seeds : Nat → Nat)
    (hle : rd.minInt8 ≤ rd.maxInt8) (hlo : -128 ≤ rd.minInt8)
    (hhi : rd.maxInt8 ≤ 127) :
    readLoop rd now seeds 0 [⟨"Int8"⟩] =
      .ok [⟨"Int8", now,
        rd.minInt8 + ((seeds 0 : Nat) : Int) % (rd.maxInt8 - rd.minInt8 + 1)⟩] := by
  have hv := @value_ok rd "Int8" rd.minInt8 rd.maxInt8 (seeds 0)
    (by simp [RandomDevice.rangeValue]) hle
  have hmem := @sample_mem rd.minInt8 rd.maxInt8 (seeds 0) hle
  have hw : int8Wrap (rd.minInt8 + ((seeds 0 : Nat) : Int) % (rd.maxInt8 - rd.minInt8 + 1))
      = rd.minInt8 + ((seeds 0 : Nat) : Int) % (rd.maxInt8 - rd.minInt8 + 1) :=
    int8Wrap_id (by omega) (by omega)
  simp only [readLoop, hv]
  simp [mkReadValue, hw]

/-- A single Int16 read on a device whose 16-bit bounds are well ordered and
inside the absolute 16-bit range returns exactly the sampled value. -/
theorem readLoop_int16 (rd : RandomDevice) (now : Int) (seeds : Nat → Nat)
    (hle : rd.minInt16 ≤ rd.maxInt16) (hlo : -32768 ≤ rd.minInt16)
    (hhi : rd.maxInt16 ≤ 32767) :
    readLoop rd now seeds 0 [⟨"Int16"⟩] =
      .ok [⟨"Int16", now,
        rd.minInt16 + ((seeds 0 : Nat) : Int) % (rd.maxInt16 - rd.minInt16 + 1)⟩] := by
  have hv := @value_ok rd "Int16" rd.minInt16 rd.maxInt16 (seeds 0)
    (by simp [RandomDevice.rangeValue]) hle
  have hmem := @sample_mem rd.minInt16 rd.maxInt16 (seeds 0) hle
  have hw : int16Wrap (rd.minInt16 + ((seeds 0 : Nat) : Int) % (rd.maxInt16 - rd.minInt16 + 1))
      = rd.minInt16 + ((seeds 0 : Nat) : Int) % (rd.maxInt16 - rd.minInt16 + 1) :=
    int16Wrap_id (by omega) (by omega)
  simp only [readLoop, hv]
  simp [mkReadValue, hw]

/-- A single Int32 read on a device whose 32-bit bounds are well ordered and
inside the absolute 32-bit range returns exactly the sampled value. -/
theorem readLoop_int32 (rd : RandomDevice) (now : Int) (seeds : Nat → Nat)
    (hle : rd.minInt32 ≤ rd.maxInt32) (hlo : -2147483648 ≤ rd.minInt32)
    (hhi : rd.maxInt32 ≤ 2147483647) :
    readLoop rd now seeds 0 [⟨"Int32"⟩] =
      .ok [⟨"Int32", now,
        rd.minInt32 + ((seeds 0 : Nat) : Int) % (rd.maxInt32 - rd.minInt32 + 1)⟩] := by
  have hv := @value_ok rd "Int32" rd.minInt32 rd.maxInt32 (seeds 0)
    (by simp [RandomDevice.rangeValue]) hle
  have hmem := @sample_mem rd.minInt32 rd.maxInt32 (seeds 0) hle
  have hw : int32Wrap (rd.minInt32 + ((seeds 0 : Nat) : Int) % (rd.maxInt32 - rd.minInt32 + 1))
      = rd.minInt32 + ((seeds 0 : Nat) : Int) % (rd.maxInt32 - rd.minInt32 + 1) :=
    int32Wrap_id (by omega) (by omega)
  simp only [readLoop, hv]
  simp [mkReadValue, hw]

theorem writeLoop_append_error {rd rd1 : RandomDevice} {e : DriverError}
    (ps1 : List CommandValue) (bad : CommandValue) (ps2 : List CommandValue)
    (h1 : writeLoop rd ps1 = (rd1, none)) (h2 : writeStep rd1 bad = .error e) :
    writeLoop rd (ps1 ++ bad :: ps2) = (rd1, some e) := by
  induction ps1 generalizing rd with
  | nil =>
      simp only [writeLoop, Prod.mk.injEq] at h1
      rw [List.nil_append]
      unfold writeLoop
      rw [h1.1, h2]
  | cons p ps ih =>
      rw [List.cons_append]
      unfold writeLoop at h1 ⊢
      cases h : writeStep rd p with
      | error e2 => rw [h] at h1; simp at h1
      | ok rd2 => rw [h] at h1; exact ih h1

theorem handleWrite_append_error (s : SimpleDriver) (d : String)
    {rd1 : RandomDevice} {e : DriverError} (ps1 : List CommandValue)
    (bad : CommandValue) (ps2 : List CommandValue)
    (h1 : writeLoop (deviceFor s d) ps1 = (rd1, none))
    (h2 : writeStep rd1 bad = .error e) :
    (HandleWriteCommands s d (ps1 ++ bad :: ps2)).snd = some e ∧
    deviceFor (HandleWriteCommands s d (ps1 ++ bad :: ps2)).fst d = rd1 := by
  have hl := writeLoop_append_error ps1 bad ps2 h1 h2
  constructor
  · show (writeLoop (deviceFor s d) (ps1 ++ bad :: ps2)).snd = some e
    rw [hl]
  · show deviceFor (insertDevice s d (writeLoop (deviceFor s d) (ps1 ++ bad :: ps2)).fst) d = rd1
    rw [hl, deviceFor_insert, if_pos rfl]

theorem writeStep_replacesOnly {rd rd2 : RandomDevice} {p : CommandValue}
    (h : writeStep rd p = .ok rd2) : replacesOnly p.object p.value rd rd2 := by
  unfold writeStep at h
  unfold replacesOnly
  split_ifs at h <;>
    first
      | (injection h with h; subst h;
         refine ⟨?_, ?_, ?_, ?_, ?_, ?_⟩ <;> simp_all)
      | exact absurd h (by simp)

/-! ## Claims -/

/-- C1, counterexample: two individually accepted writes (first setting Min_Int8 to 100,
then Max_Int8 to 50) leave the 8-bit range empty, and the following
Read(dev, Int8) does not return any value satisfying min ≤ v ≤ max — in the
model it reports the empty range on which generation is undefined (the Go
library panics there). The claim as stated is therefore false after this
sequence of successful Writes. -/
theorem C1_counterexample :
    (HandleWriteCommands InitializeDriver "dev"
        [⟨"Min_Int8", 100⟩, ⟨"Max_Int8", 50⟩]).snd = none ∧
    (deviceFor (HandleWriteCommands InitializeDriver "dev"
        [⟨"Min_Int8", 100⟩, ⟨"Max_Int8", 50⟩]).fst "dev").minInt8 = 100 ∧
    (deviceFor (HandleWriteCommands InitializeDriver "dev"
        [⟨"Min_Int8", 100⟩, ⟨"Max_Int8", 50⟩]).fst "dev").maxInt8 = 50 ∧
    (HandleReadCommands (HandleWriteCommands InitializeDriver "dev"
        [⟨"Min_Int8", 100⟩, ⟨"Max_Int8", 50⟩]).fst "dev"
        [⟨"Int8"⟩] 0 (fun _ => 0)).snd = .error (.emptyRange "Int8") :=
  ⟨rfl, rfl, rfl, rfl⟩

/-- C1, amended: at every reachable driver state, a Read for a supported
width whose current bounds satisfy min ≤ max returns a value v with
min ≤ v ≤ max. (The proviso min ≤ max is needed because successful Writes
can invert a width's bounds; the bounds' containment in the width's absolute
range is an invariant of all reachable states.) -/
theorem C1_read_within_current_bounds (s : SimpleDriver) (hs : Reachable s)
    (d t : String) (now : Int) (seeds : Nat → Nat) (mn mx : Int)
    (h : (deviceFor s d).rangeValue t = .ok (mn, mx)) (hle : mn ≤ mx) :
    ∃ v : ReadValue, (HandleReadCommands s d [⟨t⟩] now seeds).snd = .ok [v] ∧
      mn ≤ v.numericValue ∧ v.numericValue ≤ mx := by
  obtain ⟨h1, h2, h3, h4, h5, h6⟩ := reachable_boundsOK hs d
  simp only [defMinInt8, defMaxInt8, defMinInt16, defMaxInt16, defMinInt32,
    defMaxInt32] at h1 h2 h3 h4 h5 h6
  unfold RandomDevice.rangeValue at h
  by_cases t8 : t = "Int8"
  · subst t8
    rw [if_pos rfl] at h
    injection h with h
    obtain ⟨hmn, hmx⟩ := Prod.mk.injEq .. ▸ h
    subst hmn; subst hmx
    have hmem := @sample_mem (deviceFor s d).minInt8 (deviceFor s d).maxInt8 (seeds 0) hle
    refine ⟨⟨"Int8", now, (deviceFor s d).minInt8 + ((seeds 0 : Nat) : Int) %
        ((deviceFor s d).maxInt8 - (deviceFor s d).minInt8 + 1)⟩,
      ?_, hmem.1, hmem.2⟩
    show readLoop (deviceFor s d) now seeds 0 [⟨"Int8"⟩] = _
    exact readLoop_int8 _ now seeds hle h1 h2
  · rw [if_neg t8] at h
    by_cases t16 : t = "Int16"
    · subst t16
      rw [if_pos rfl] at h
      injection h with h
      obtain ⟨hmn, hmx⟩ := Prod.mk.injEq .. ▸ h
      subst hmn; subst hmx
      have hmem := @sample_mem (deviceFor s d).minInt16 (deviceFor s d).maxInt16 (seeds 0) hle
      refine ⟨⟨"Int16", now, (deviceFor s d).minInt16 + ((seeds 0 : Nat) : Int) %
          ((deviceFor s d).maxInt16 - (deviceFor s d).minInt16 + 1)⟩,
        ?_, hmem.1, hmem.2⟩
      show readLoop (deviceFor s d) now seeds 0 [⟨"Int16"⟩] = _
      exact readLoop_int16 _ now seeds hle h3 h4
    · rw [if_neg t16] at h
      by_cases t32 : t = "Int32"
      · subst t32
        rw [if_pos rfl] at h
        injection h with h
        obtain ⟨hmn, hmx⟩ := Prod.mk.injEq .. ▸ h
        subst hmn; subst hmx
        have hmem := @sample_mem (deviceFor s d).minInt32 (deviceFor s d).maxInt32 (seeds 0) hle
        refine ⟨⟨"Int32", now, (deviceFor s d).minInt32 + ((seeds 0 : Nat) : Int) %
            ((deviceFor s d).maxInt32 - (deviceFor s d).minInt32 + 1)⟩,
          ?_, hmem.1, hmem.2⟩
        show readLoop (deviceFor s d) now seeds 0 [⟨"Int32"⟩] = _
        exact readLoop_int32 _ now seeds hle h5 h6
      · rw [if_neg t32] at h
        exact absurd h (by simp)

/-- C1, witness for the amended theorem at the initial state, device "dev",
width Int8, full default bounds. -/
theorem C1_read_within_current_bounds_witness :
    Reachable InitializeDriver ∧
    (deviceFor InitializeDriver "dev").rangeValue "Int8" = .ok (-128, 127) ∧
    (-128 : Int) ≤ 127 ∧
    ∃ v : ReadValue,
      (HandleReadCommands InitializeDriver "dev" [⟨"Int8"⟩] 0 (fun _ => 0)).snd
          = .ok [v] ∧
      -128 ≤ v.numericValue ∧ v.numericValue ≤ 127 :=
  ⟨Reachable.init, rfl, by decide,
    C1_read_within_current_bounds InitializeDriver Reachable.init "dev" "Int8"
      0 (fun _ => 0) (-128) 127 rfl (by decide)⟩

/-- C2, counterexample: the write validation never compares a minimum with
the corresponding maximum, so the batch Min_Int8 := 100, Max_Int8 := 50 is
accepted in full and leaves the device with minInt8 = 100 > 50 = maxInt8,
violating min ≤ max. -/
theorem C2_counterexample :
    (HandleWriteCommands InitializeDriver "dev"
        [⟨"Min_Int8", 100⟩, ⟨"Max_Int8", 50⟩]).snd = none ∧
    ¬ (deviceFor (HandleWriteCommands InitializeDriver "dev"
          [⟨"Min_Int8", 100⟩, ⟨"Max_Int8", 50⟩]).fst "dev").minInt8 ≤
      (deviceFor (HandleWriteCommands InitializeDriver "dev"
          [⟨"Min_Int8", 100⟩, ⟨"Max_Int8", 50⟩]).fst "dev").maxInt8 :=
  ⟨rfl, by decide⟩

/-- C2, amended: the invariant the write validation actually maintains is
one-sided: at every reachable state and for every device, each minimum is at
or above its width's absolute floor and each maximum is at or below its
width's absolute ceiling (a violating update is rejected before the bound is
mutated); min ≤ max is not maintained. -/
theorem C2_bounds_within_absolute_limits (s : SimpleDriver) (hs : Reachable s)
    (d : String) : BoundsOK (deviceFor s d) :=
  reachable_boundsOK hs d

/-- C2, witness for the amended theorem at the initial state. -/
theorem C2_bounds_within_absolute_limits_witness :
    Reachable InitializeDriver ∧ BoundsOK (deviceFor InitializeDriver "dev") :=
  ⟨Reachable.init,
    C2_bounds_within_absolute_limits InitializeDriver Reachable.init "dev"⟩

/-- C3: write batches are processed fail-fast in iteration order — if the
updates before `bad` all succeed (producing device state rd1) and `bad` is
rejected, the call returns that error, the device keeps exactly the updates
applied before the failure point, and no later update is applied. -/
theorem C3_fail_fast_partial_application (s : SimpleDriver) (d : String)
    (ps1 : List CommandValue) (bad : CommandValue) (ps2 : List CommandValue)
    (rd1 : RandomDevice) (e : DriverError)
    (h1 : writeLoop (deviceFor s d) ps1 = (rd1, none))
    (h2 : writeStep rd1 bad = .error e) :
    (HandleWriteCommands s d (ps1 ++ bad :: ps2)).snd = some e ∧
    deviceFor (HandleWriteCommands s d (ps1 ++ bad :: ps2)).fst d = rd1 :=
  handleWrite_append_error s d ps1 bad ps2 h1 h2

/-- C3, witness: Min_Int8 := 100 applies, Max_Int16 := 40000 fails with
OutOfRange, and the trailing Max_Int8 := 50 is not applied. -/
theorem C3_fail_fast_partial_application_witness :
    writeLoop (deviceFor InitializeDriver "dev") [⟨"Min_Int8", 100⟩]
        = ({ newRandomDevice with minInt8 := 100 }, none) ∧
    writeStep { newRandomDevice with minInt8 := 100 } ⟨"Max_Int16", 40000⟩
        = .error (.outOfRange "Max_Int16" 40000 (-32768) 32767) ∧
    (HandleWriteCommands InitializeDriver "dev"
        ([⟨"Min_Int8", 100⟩] ++ ⟨"Max_Int16", 40000⟩ :: [⟨"Max_Int8", 50⟩])).snd
        = some (.outOfRange "Max_Int16" 40000 (-32768) 32767) ∧
    deviceFor (HandleWriteCommands InitializeDriver "dev"
        ([⟨"Min_Int8", 100⟩] ++ ⟨"Max_Int16", 40000⟩ :: [⟨"Max_Int8", 50⟩])).fst "dev"
        = { newRandomDevice with minInt8 := 100 } :=
  ⟨by decide, rfl,
    C3_fail_fast_partial_application InitializeDriver "dev" [⟨"Min_Int8", 100⟩]
      ⟨"Max_Int16", 40000⟩ [⟨"Max_Int8", 50⟩] { newRandomDevice with minInt8 := 100 }
      (.outOfRange "Max_Int16" 40000 (-32768) 32767) (by decide) rfl⟩

/-- C4, counterexample: a Read with the unsupported type tag "Float64" on the
previously unseen device "dev" fails with UnsupportedType, yet it does mutate
the registry: the lazy-creation step has inserted a fresh default-bounds
entry for "dev" before the type was validated. -/
theorem C4_counterexample :
    InitializeDriver.randomDevices "dev" = none ∧
    (HandleReadCommands InitializeDriver "dev" [⟨"Float64"⟩] 0 (fun _ => 0)).snd
        = .error (.unsupportedType "Float64") ∧
    (HandleReadCommands InitializeDriver "dev"
        [⟨"Float64"⟩] 0 (fun _ => 0)).fst.randomDevices "dev"
        = some newRandomDevice :=
  ⟨rfl, rfl, rfl⟩

/-- C4, amended: a Read with an unsupported requested type fails with
UnsupportedType and mutates no device bounds — the named device's registry
entry afterwards holds exactly the bounds the driver already operated on
(so a known device is fully unchanged), and every other device's entry is
untouched; the only state change is the lazy insertion of a previously
unseen device with default bounds, which happens before validation. -/
theorem C4_unsupported_read_no_bound_mutation (s : SimpleDriver) (d t : String)
    (now : Int) (seeds : Nat → Nat)
    (h8 : t ≠ "Int8") (h16 : t ≠ "Int16") (h32 : t ≠ "Int32") :
    (HandleReadCommands s d [⟨t⟩] now seeds).snd = .error (.unsupportedType t) ∧
    (HandleReadCommands s d [⟨t⟩] now seeds).fst.randomDevices d
        = some (deviceFor s d) ∧
    ∀ n : String, n ≠ d →
      (HandleReadCommands s d [⟨t⟩] now seeds).fst.randomDevices n
          = s.randomDevices n := by
  refine ⟨?_, ?_, ?_⟩
  · show readLoop (deviceFor s d) now seeds 0 [⟨t⟩] = _
    have hv : (deviceFor s d).value (seeds 0) t = .error (.unsupportedType t) := by
      unfold RandomDevice.value RandomDevice.rangeValue
      rw [if_neg h8, if_neg h16, if_neg h32]
    simp [readLoop, hv]
  · show (insertDevice s d (deviceFor s d)).randomDevices d = _
    simp [insertDevice]
  · intro n hn
    show (insertDevice s d (deviceFor s d)).randomDevices n = _
    simp [insertDevice, hn]

/-- C4, witness for the amended theorem: unsupported tag "Float64" on the
initial state. -/
theorem C4_unsupported_read_no_bound_mutation_witness :
    ("Float64" ≠ "Int8" ∧ "Float64" ≠ "Int16" ∧ "Float64" ≠ "Int32") ∧
    ((HandleReadCommands InitializeDriver "dev" [⟨"Float64"⟩] 0 (fun _ => 0)).snd
        = .error (.unsupportedType "Float64") ∧
     (HandleReadCommands InitializeDriver "dev"
        [⟨"Float64"⟩] 0 (fun _ => 0)).fst.randomDevices "dev"
        = some (deviceFor InitializeDriver "dev") ∧
     ∀ n : String, n ≠ "dev" →
       (HandleReadCommands InitializeDriver "dev"
          [⟨"Float64"⟩] 0 (fun _ => 0)).fst.randomDevices n
           = InitializeDriver.randomDevices n) :=
  ⟨⟨by decide, by decide, by decide⟩,
    C4_unsupported_read_no_bound_mutation InitializeDriver "dev" "Float64" 0
      (fun _ => 0) (by decide) (by decide) (by decide)⟩

/-- C5: boundary behavior of writes at the absolute width limits —
Min_Int8 := -128 then Max_Int8 := 127 both succeed, Max_Int16 := 32767
succeeds, while Min_Int8 := -129 and Max_Int16 := 32768 each fail with
OutOfRange carrying the width's floor and ceiling. -/
theorem C5_boundary_writes :
    (HandleWriteCommands InitializeDriver "dev" [⟨"Min_Int8", -128⟩]).snd = none ∧
    (HandleWriteCommands
        (HandleWriteCommands InitializeDriver "dev" [⟨"Min_Int8", -128⟩]).fst
        "dev" [⟨"Max_Int8", 127⟩]).snd = none ∧
    (HandleWriteCommands InitializeDriver "dev" [⟨"Max_Int16", 32767⟩]).snd = none ∧
    (HandleWriteCommands InitializeDriver "dev" [⟨"Min_Int8", -129⟩]).snd
        = some (.outOfRange "Min_Int8" (-129) (-128) 127) ∧
    (HandleWriteCommands InitializeDriver "dev" [⟨"Max_Int16", 32768⟩]).snd
        = some (.outOfRange "Max_Int16" 32768 (-32768) 32767) :=
  ⟨rfl, rfl, rfl, rfl, rfl⟩

/-- C6: a write update naming a field outside the six recognized bound names
makes the call fail with UnknownField, and that update applies no change to
any bound — the device keeps exactly the state produced by the updates before
it. -/
theorem C6_unknown_field (s : SimpleDriver) (d : String)
    (ps1 : List CommandValue) (bad : CommandValue) (ps2 : List CommandValue)
    (rd1 : RandomDevice)
    (h1 : writeLoop (deviceFor s d) ps1 = (rd1, none))
    (hb1 : bad.object ≠ "Min_Int8") (hb2 : bad.object ≠ "Max_Int8")
    (hb3 : bad.object ≠ "Min_Int16") (hb4 : bad.object ≠ "Max_Int16")
    (hb5 : bad.object ≠ "Min_Int32") (hb6 : bad.object ≠ "Max_Int32") :
    (HandleWriteCommands s d (ps1 ++ bad :: ps2)).snd
        = some (.unknownField bad.object) ∧
    deviceFor (HandleWriteCommands s d (ps1 ++ bad :: ps2)).fst d = rd1 := by
  have h2 : writeStep rd1 bad = .error (.unknownField bad.object) := by
    unfold writeStep
    rw [if_neg hb1, if_neg hb2, if_neg hb3, if_neg hb4, if_neg hb5, if_neg hb6]
  exact handleWrite_append_error s d ps1 bad ps2 h1 h2

/-- C6, witness: the single-update batch naming "Bogus" fails with
UnknownField and leaves the fresh device at its defaults. -/
theorem C6_unknown_field_witness :
    writeLoop (deviceFor InitializeDriver "dev") [] = (newRandomDevice, none) ∧
    (HandleWriteCommands InitializeDriver "dev" ([] ++ ⟨"Bogus", 1⟩ :: [])).snd
        = some (.unknownField "Bogus") ∧
    deviceFor (HandleWriteCommands InitializeDriver "dev"
        ([] ++ ⟨"Bogus", 1⟩ :: [])).fst "dev" = newRandomDevice :=
  ⟨by decide,
    (C6_unknown_field InitializeDriver "dev" [] ⟨"Bogus", 1⟩ [] newRandomDevice
      (by decide) (by decide) (by decide) (by decide) (by decide) (by decide)
      (by decide)).1,
    (C6_unknown_field InitializeDriver "dev" [] ⟨"Bogus", 1⟩ [] newRandomDevice
      (by decide) (by decide) (by decide) (by decide) (by decide) (by decide)
      (by decide)).2⟩

/-- C7: a Read on a previously unseen device identifier succeeds for every
supported width without any prior Write — the device is created lazily with
default bounds equal to the full legal range of each width, and the returned
value lies inside that default full-width range. -/
theorem C7_unseen_device_default_read (s : SimpleDriver) (d : String)
    (now : Int) (seeds : Nat → Nat) (hnew : s.randomDevices d = none) :
    (HandleReadCommands s d [⟨"Int8"⟩] now seeds).fst.randomDevices d
        = some newRandomDevice ∧
    (∃ v : ReadValue,
        (HandleReadCommands s d [⟨"Int8"⟩] now seeds).snd = .ok [v] ∧
        -128 ≤ v.numericValue ∧ v.numericValue ≤ 127) ∧
    (∃ v : ReadValue,
        (HandleReadCommands s d [⟨"Int16"⟩] now seeds).snd = .ok [v] ∧
        -32768 ≤ v.numericValue ∧ v.numericValue ≤ 32767) ∧
    (∃ v : ReadValue,
        (HandleReadCommands s d [⟨"Int32"⟩] now seeds).snd = .ok [v] ∧
        -2147483648 ≤ v.numericValue ∧ v.numericValue ≤ 2147483647) := by
  have hdev : deviceFor s d = newRandomDevice := by simp [deviceFor, hnew]
  refine ⟨?_, ?_, ?_, ?_⟩
  · show (insertDevice s d (deviceFor s d)).randomDevices d = _
    simp [insertDevice, hdev]
  · refine ⟨⟨"Int8", now, -128 + ((seeds 0 : Nat) : Int) % 256⟩, ?_, ?_, ?_⟩
    · show readLoop (deviceFor s d) now seeds 0 [⟨"Int8"⟩]
          = .ok [⟨"Int8", now, -128 + ((seeds 0 : Nat) : Int) % 256⟩]
      rw [hdev]
      exact readLoop_int8 newRandomDevice now seeds (by decide) (by decide) (by decide)
    · show (-128 : Int) ≤ -128 + ((seeds 0 : Nat) : Int) % 256
      omega
    · show -128 + ((seeds 0 : Nat) : Int) % 256 ≤ 127
      omega
  · refine ⟨⟨"Int16", now, -32768 + ((seeds 0 : Nat) : Int) % 65536⟩, ?_, ?_, ?_⟩
    · show readLoop (deviceFor s d) now seeds 0 [⟨"Int16"⟩]
          = .ok [⟨"Int16", now, -32768 + ((seeds 0 : Nat) : Int) % 65536⟩]
      rw [hdev]
      exact readLoop_int16 newRandomDevice now seeds (by decide) (by decide) (by decide)
    · show (-32768 : Int) ≤ -32768 + ((seeds 0 : Nat) : Int) % 65536
      omega
    · show -32768 + ((seeds 0 : Nat) : Int) % 65536 ≤ 32767
      omega
  · refine ⟨⟨"Int32", now, -2147483648 + ((seeds 0 : Nat) : Int) % 4294967296⟩, ?_, ?_, ?_⟩
    · show readLoop (deviceFor s d) now seeds 0 [⟨"Int32"⟩]
          = .ok [⟨"Int32", now, -2147483648 + ((seeds 0 : Nat) : Int) % 4294967296⟩]
      rw [hdev]
      exact readLoop_int32 newRandomDevice now seeds (by decide) (by decide) (by decide)
    · show (-2147483648 : Int) ≤ -2147483648 + ((seeds 0 : Nat) : Int) % 4294967296
      omega
    · show -2147483648 + ((seeds 0 : Nat) : Int) % 4294967296 ≤ 2147483647
      omega

/-- C7, witness at the initial state, device "dev". -/
theorem C7_unseen_device_default_read_witness :
    InitializeDriver.randomDevices "dev" = none ∧
    ((HandleReadCommands InitializeDriver "dev" [⟨"Int8"⟩] 0 (fun _ => 0)).fst.randomDevices "dev"
        = some newRandomDevice ∧
     (∃ v : ReadValue,
        (HandleReadCommands InitializeDriver "dev" [⟨"Int8"⟩] 0 (fun _ => 0)).snd = .ok [v] ∧
        -128 ≤ v.numericValue ∧ v.numericValue ≤ 127) ∧
     (∃ v : ReadValue,
        (HandleReadCommands InitializeDriver "dev" [⟨"Int16"⟩] 0 (fun _ => 0)).snd = .ok [v] ∧
        -32768 ≤ v.numericValue ∧ v.numericValue ≤ 32767) ∧
     (∃ v : ReadValue,
        (HandleReadCommands InitializeDriver "dev" [⟨"Int32"⟩] 0 (fun _ => 0)).snd = .ok [v] ∧
        -2147483648 ≤ v.numericValue ∧ v.numericValue ≤ 2147483647)) :=
  ⟨rfl, C7_unseen_device_default_read InitializeDriver "dev" 0 (fun _ => 0) rfl⟩

/-- C8: a successful single-update write replaces exactly the named bound of
the named device — the call succeeds, the device's new state differs from the
old only at the named field, and every other device's registry entry is
unchanged. -/
theorem C8_successful_write_frame (s : SimpleDriver) (d : String)
    (p : CommandValue) (rd2 : RandomDevice)
    (h : writeStep (deviceFor s d) p = .ok rd2) :
    (HandleWriteCommands s d [p]).snd = none ∧
    (HandleWriteCommands s d [p]).fst.randomDevices d = some rd2 ∧
    (∀ n : String, n ≠ d →
        (HandleWriteCommands s d [p]).fst.randomDevices n = s.randomDevices n) ∧
    replacesOnly p.object p.value (deviceFor s d) rd2 := by
  have hloop : writeLoop (deviceFor s d) [p] = (rd2, none) := by
    unfold writeLoop
    rw [h]
    rfl
  refine ⟨?_, ?_, ?_, writeStep_replacesOnly h⟩
  · show (writeLoop (deviceFor s d) [p]).snd = none
    rw [hloop]
  · show (insertDevice s d (writeLoop (deviceFor s d) [p]).fst).randomDevices d = some rd2
    rw [hloop]
    simp [insertDevice]
  · intro n hn
    show (insertDevice s d (writeLoop (deviceFor s d) [p]).fst).randomDevices n
        = s.randomDevices n
    simp [insertDevice, hn]

/-- C8, witness: Min_Int8 := 0 on the fresh device "dev" replaces only the
8-bit minimum. -/
theorem C8_successful_write_frame_witness :
    writeStep (deviceFor InitializeDriver "dev") ⟨"Min_Int8", 0⟩
        = .ok { newRandomDevice with minInt8 := 0 } ∧
    ((HandleWriteCommands InitializeDriver "dev" [⟨"Min_Int8", 0⟩]).snd = none ∧
     (HandleWriteCommands InitializeDriver "dev"
        [⟨"Min_Int8", 0⟩]).fst.randomDevices "dev"
        = some { newRandomDevice with minInt8 := 0 } ∧
     (∀ n : String, n ≠ "dev" →
        (HandleWriteCommands InitializeDriver "dev"
          [⟨"Min_Int8", 0⟩]).fst.randomDevices n
            = InitializeDriver.randomDevices n) ∧
     replacesOnly "Min_Int8" 0 (deviceFor InitializeDriver "dev")
        { newRandomDevice with minInt8 := 0 }) :=
  ⟨rfl,
    C8_successful_write_frame InitializeDriver "dev" ⟨"Min_Int8", 0⟩
      { newRandomDevice with minInt8 := 0 } rfl⟩

/-- C9: the lifecycle operations always succeed and change nothing —
Stop returns success for force = true and force = false alike, and
DisconnectDevice returns success for every device name, each leaving the
driver state untouched. -/
theorem C9_lifecycle_noops (s : SimpleDriver) (force : Bool) (d : String) :
    Stop s force = (s, none) ∧ DisconnectDevice s d = (s, none) :=
  ⟨rfl, rfl⟩

/-- C10: for a previously unseen device identifier, both handlers insert a
fresh default-bounds entry into the registry before validating the request:
after a Read with any request list (including a failing one) the entry is
present with default bounds, and after a Write batch whose very first update
is rejected the call fails yet the entry is present with default bounds. -/
theorem C10_lazy_insert_survives_errors (s : SimpleDriver) (d : String)
    (reqs : List CommandRequest) (now : Int) (seeds : Nat → Nat)
    (p : CommandValue) (ps : List CommandValue) (e : DriverError)
    (hnew : s.randomDevices d = none)
    (hp : writeStep newRandomDevice p = .error e) :
    (HandleReadCommands s d reqs now seeds).fst.randomDevices d
        = some newRandomDevice ∧
    (HandleWriteCommands s d (p :: ps)).snd = some e ∧
    (HandleWriteCommands s d (p :: ps)).fst.randomDevices d
        = some newRandomDevice := by
  have hdev : deviceFor s d = newRandomDevice := by simp [deviceFor, hnew]
  have hloop : writeLoop (deviceFor s d) (p :: ps) = (newRandomDevice, some e) := by
    rw [hdev]
    unfold writeLoop
    rw [hp]
  refine ⟨?_, ?_, ?_⟩
  · show (insertDevice s d (deviceFor s d)).randomDevices d = _
    simp [insertDevice, hdev]
  · show (writeLoop (deviceFor s d) (p :: ps)).snd = some e
    rw [hloop]
  · show (insertDevice s d (writeLoop (deviceFor s d) (p :: ps)).fst).randomDevices d = _
    rw [hloop]
    simp [insertDevice]

/-- C10, witness: on the initial state, a failing Read (type "Float64") and a
Write whose first update Min_Int8 := -129 is rejected both leave "dev"
registered with default bounds. -/
theorem C10_lazy_insert_survives_errors_witness :
    InitializeDriver.randomDevices "dev" = none ∧
    writeStep newRandomDevice ⟨"Min_Int8", -129⟩
        = .error (.outOfRange "Min_Int8" (-129) (-128) 127) ∧
    ((HandleReadCommands InitializeDriver "dev"
        [⟨"Float64"⟩] 0 (fun _ => 0)).fst.randomDevices "dev"
        = some newRandomDevice ∧
     (HandleWriteCommands InitializeDriver "dev" [⟨"Min_Int8", -129⟩]).snd
        = some (.outOfRange "Min_Int8" (-129) (-128) 127) ∧
     (HandleWriteCommands InitializeDriver "dev"
        [⟨"Min_Int8", -129⟩]).fst.randomDevices "dev" = some newRandomDevice) :=
  ⟨rfl, rfl,
    C10_lazy_insert_survives_errors InitializeDriver "dev" [⟨"Float64"⟩] 0
      (fun _ => 0) ⟨"Min_Int8", -129⟩ [] (.outOfRange "Min_Int8" (-129) (-128) 127)
      rfl rfl⟩

end DeviceSimple
